import Mathlib

/-!
# Verification of the Chaoscoin autonomous miner

Shallow embedding of `src/openclaw-bot/chaoscoin_miner.py`:
* the ABI codec (`encode_uint256`, `decode_uint256`),
* the RPC read path (`rpc_call`, `eth_call`, `get_balance`),
* the warmup computation (`get_warmup_status`),
* the receipt check (`check_tx_receipt`),
* the static game catalog (`RIGS`, `SHIELDS`, `FACILITIES`),
* one cycle of the autonomous loop (`cmd_auto`), and
* the recommendation builder of `cmd_report`.

Python floats (CHAOS amounts obtained by dividing wei by `1e18`) are
modelled as exact rationals; all comparisons in the decision logic are
order comparisons, which the rational model reflects faithfully.
Transactions and RPC round trips are modelled by passing the remote
side's responses (an `Env`) explicitly to the cycle function.
-/

namespace Chaoscoin

/-! ## ABI codec (`encode_uint256` / `decode_uint256`) -/

/-- One lowercase hex digit character, as produced by Python `hex`:
`0`-`9` then `a`-`f`. -/
def hexDigitChar (n : ℕ) : Char :=
  if n < 10 then Char.ofNat (48 + n) else Char.ofNat (87 + n)

/-- The hex digits of `n`, most significant first, as produced by
`hex(n)[2:]` in Python (no leading zeros, and a single `0` for zero). -/
def hexChars (n : ℕ) : List Char :=
  if _h : n < 16 then [hexDigitChar n]
  else hexChars (n / 16) ++ [hexDigitChar (n % 16)]
termination_by n
decreasing_by exact Nat.div_lt_self (by omega) (by omega)

/-- `encode_uint256(val)`: `hex(val)[2:].zfill(64)` — lowercase hex digits
left-padded with `0` to width 64 (longer inputs are kept whole). -/
def encode_uint256 (val : ℕ) : String :=
  String.mk (List.replicate (64 - (hexChars val).length) '0' ++ hexChars val)

/-- The numeric value of a hex digit character (`int` accepts both cases),
`none` when the character is not a hex digit. -/
def hexVal (c : Char) : Option ℕ :=
  if '0' ≤ c ∧ c ≤ '9' then some (c.toNat - 48)
  else if 'a' ≤ c ∧ c ≤ 'f' then some (c.toNat - 87)
  else if 'A' ≤ c ∧ c ≤ 'F' then some (c.toNat - 55)
  else none

/-- One step of base-16 accumulation; an earlier failure or a non-digit
character poisons the result. -/
def hexAccum (acc : Option ℕ) (c : Char) : Option ℕ :=
  match acc, hexVal c with
  | some a, some d => some (16 * a + d)
  | _, _ => none

/-- Base-16 value of a digit string (most significant digit first). -/
def hexDigitsVal (l : List Char) : Option ℕ :=
  l.foldl hexAccum (some 0)

/-- Python `int(s, 16)` on the character list of `s`, for nonnegative
inputs without whitespace, sign or underscore separators: an optional
`0x`/`0X` prefix followed by at least one hex digit; anything else is a
`ValueError` (`none`). -/
def intBase16 (l : List Char) : Option ℕ :=
  let body := if l.take 2 = ['0', 'x'] ∨ l.take 2 = ['0', 'X'] then l.drop 2 else l
  if body = [] then none else hexDigitsVal body

/-- `decode_uint256(hex_str)`: empty strings and the literal `"0x"` decode
to `0`; everything else goes through `int(hex_str, 16)`, which raises
`ValueError` (modelled as `Except.error`) on malformed input. -/
def decode_uint256 (hex_str : String) : Except String ℕ :=
  if hex_str.data = [] ∨ hex_str.data = ['0', 'x'] then Except.ok 0
  else
    match intBase16 hex_str.data with
    | some n => Except.ok n
    | none => Except.error ("ValueError")

/-! ## RPC read path (`rpc_call`, `eth_call`, `get_balance`) -/

/-- The JSON object returned by `rpc_call`: a successful round trip gives
the remote response (which carries a `result` field on success), a
`URLError` gives `{"error": {"message": str(e)}}` — no `result` field. -/
structure RpcResponse where
  result : Option String
  error : Option String
deriving DecidableEq, Repr

/-- `rpc_call`: the transport either delivers the remote response or
raises `URLError`, which the function catches, returning an error dict. -/
def rpc_call (transport : Except String RpcResponse) : RpcResponse :=
  match transport with
  | Except.ok resp => resp
  | Except.error msg => { result := none, error := some msg }

/-- `eth_call` extracts `result.get("result", "0x")` from the response. -/
def eth_call (resp : RpcResponse) : String :=
  resp.result.getD ("0x")

/-- The integer (wei) value produced by `get_balance` before the `/1e18`
display scaling: `decode_uint256(eth_call(...))`. -/
def get_balance_wei (transport : Except String RpcResponse) : Except String ℕ :=
  decode_uint256 (eth_call (rpc_call transport))

/-! ## Warmup status (`get_warmup_status`) -/

def REGISTRATION_BLOCK : ℤ := 11672020

def FIRST_MINE_DELAY : ℤ := 10000

def CLAIM_ELIGIBLE_BLOCK : ℤ := REGISTRATION_BLOCK + FIRST_MINE_DELAY

/-- The dict returned by `get_warmup_status` (the float `est_minutes`
display field is omitted; it is `blocks_remaining * 0.4 / 60` rounded). -/
structure WarmupStatus where
  current_block : ℤ
  eligible_block : ℤ
  blocks_remaining : ℤ
  can_claim : Bool
deriving DecidableEq, Repr

/-- `get_warmup_status`, as a function of the block height read from the
chain: `remaining = max(0, CLAIM_ELIGIBLE_BLOCK - block)` and
`can_claim = remaining == 0`. -/
def get_warmup_status (block : ℤ) : WarmupStatus :=
  let remaining := max 0 (CLAIM_ELIGIBLE_BLOCK - block)
  { current_block := block
    eligible_block := CLAIM_ELIGIBLE_BLOCK
    blocks_remaining := remaining
    can_claim := remaining == 0 }

/-! ## Receipt check (`check_tx_receipt`) -/

/-- A transaction receipt as read back from the chain; `status` is
`none` when the receipt JSON carries no `status` field (the code then
defaults to `"0x1"`). -/
structure Receipt where
  status : Option ℕ
  gasUsed : ℕ
deriving DecidableEq, Repr

/-- `check_tx_receipt`: polls once for the receipt after a fixed settle
delay. No receipt yet (`none`) returns `True` ("assume ok"); a receipt
with status `0` returns `False`; any other status returns `True`. -/
def check_tx_receipt (receipt : Option Receipt) : Bool :=
  match receipt with
  | none => true
  | some r => if r.status.getD 1 = 0 then false else true

/-! ## Static game catalog -/

structure RigSpec where
  tier : ℕ
  name : String
  cost : ℕ
  hashrate : ℕ
  power : ℕ
  durability : ℕ
deriving DecidableEq, Repr

def potato_rig : RigSpec :=
  { tier := 0, name := ("Potato Rig"), cost := 0, hashrate := 15, power := 10, durability := 500 }

def scrapheap_rig : RigSpec :=
  { tier := 1, name := ("Scrapheap"), cost := 500, hashrate := 40, power := 25, durability := 400 }

def windmill_rig : RigSpec :=
  { tier := 2, name := ("Windmill"), cost := 2000, hashrate := 100, power := 50, durability := 350 }

def magma_rig : RigSpec :=
  { tier := 3, name := ("Magma Rig"), cost := 10000, hashrate := 300, power := 100, durability := 300 }

def neutrino_rig : RigSpec :=
  { tier := 4, name := ("Neutrino Rig"), cost := 50000, hashrate := 1000, power := 200, durability := 250 }

def RIGS : List RigSpec :=
  [potato_rig, scrapheap_rig, windmill_rig, magma_rig, neutrino_rig]

structure ShieldSpec where
  tier : ℕ
  name : String
  cost : ℕ
  absorption : ℕ
  charges : ℕ
deriving DecidableEq, Repr

def SHIELDS : List ShieldSpec :=
  [ { tier := 0, name := ("None"), cost := 0, absorption := 0, charges := 0 }
  , { tier := 1, name := ("Magnetic Shield"), cost := 1000, absorption := 30, charges := 3 }
  , { tier := 2, name := ("Electromagnetic Shield"), cost := 5000, absorption := 60, charges := 5 } ]

structure FacilitySpec where
  level : ℕ
  name : String
  slots : ℕ
  power : ℕ
  shelter : ℕ
  upgrade_cost : ℕ
deriving DecidableEq, Repr

def FACILITIES : List FacilitySpec :=
  [ { level := 1, name := ("The Burrow"), slots := 2, power := 50, shelter := 10, upgrade_cost := 0 }
  , { level := 2, name := ("Faraday Cage"), slots := 4, power := 120, shelter := 30, upgrade_cost := 5000 }
  , { level := 3, name := ("Reinforced Bunker"), slots := 6, power := 250, shelter := 60, upgrade_cost := 25000 } ]

/-! ## Decision Engine rule 1 (`cmd_auto`, priority 1) -/

/-- The test `rig["cost"] > 0 and balance >= rig["cost"]` of the rig scan. -/
def rig_affordable (balance : ℚ) (r : RigSpec) : Bool :=
  decide (0 < r.cost ∧ (r.cost : ℚ) ≤ balance)

/-- The rig scan of `cmd_auto` priority 1: iterate over `reversed(RIGS)`
(most expensive first) and take the first rig with `cost > 0` and
`balance >= cost`. -/
def best_rig (balance : ℚ) : Option RigSpec :=
  RIGS.reverse.find? (rig_affordable balance)

/-- Rule 1 of the decision ladder: the rig scan runs only under the
`balance >= 500` guard of priority 1. -/
def rule1 (balance : ℚ) : Option RigSpec :=
  if (500 : ℚ) ≤ balance then best_rig balance else none

/-! ## One cycle of the autonomous loop (`cmd_auto`) -/

/-- The string returned by `send_tx`: either a transaction hash or a
string starting with `"ERROR"` (the code tests `tx.startswith("ERROR")`). -/
inductive SendResult where
  | ok (txHash : String)
  | err (msg : String)
deriving DecidableEq, Repr

/-- `tx.startswith("ERROR")`. -/
def isErr : SendResult → Bool
  | SendResult.ok _ => false
  | SendResult.err _ => true

/-- The transactions `cmd_auto` can submit in a cycle, identified by the
contract call they build. -/
inductive Tx where
  | heartbeat
  | buyRig (tier : ℕ)
  | equipRig (rigId : ℕ)
  | buyShield (tier : ℕ)
  | upgradeFacility
  | migrate (zone : ℕ)
deriving DecidableEq, Repr

/-- The local progression variables of `cmd_auto`'s loop (`cycle`,
`next_rig_id`, `bought_rigs`, `current_zone`, `facility_level`,
`shield_tier`), initialized to `0, 33, [], 2, 1, 0`. -/
structure ProgState where
  cycle : ℕ
  next_rig_id : ℕ
  bought_rigs : List ℕ
  current_zone : ℕ
  facility_level : ℕ
  shield_tier : ℕ
deriving DecidableEq, Repr

/-- The remote side's responses consumed by one cycle of `cmd_auto`:
the result of each `send_tx` call the cycle may make, and the values
returned by the state reads. `facility_receipt` is the on-chain receipt
of the facility-upgrade transaction, if any; `cmd_auto` never calls
`check_tx_receipt`, so the cycle cannot consult it. The balance
re-reads after a successful purchase only feed log output and are not
modelled. -/
structure Env where
  hb_send : SendResult
  balance : ℚ
  pending : ℚ
  rig_buy_send : SendResult
  rig_equip_send : SendResult
  shield1_send : SendResult
  facility_send : SendResult
  shield2_send : SendResult
  migrate_send : SendResult
  facility_receipt : Option Receipt
deriving DecidableEq, Repr

/-- Steps 2–3 of a `cmd_auto` cycle: read state, then walk the priority
ladder, stopping after the first action whose submission is accepted
(`action_taken`); a failed submission falls through to the next
priority. Returns the updated progression variables and the policy
transactions submitted, in order. -/
def runPolicy (st : ProgState) (env : Env) : ProgState × List Tx :=
  let balance := env.balance
  -- Priority 5: migrate once `current_zone == 2 and balance >= 2000 and cycle > 20`
  let prio5 : ProgState → List Tx → ProgState × List Tx := fun s tr =>
    if s.current_zone = 2 ∧ (2000 : ℚ) ≤ balance ∧ 20 < s.cycle then
      let target : ℕ := if 1 ≤ s.shield_tier then 7 else 0
      if isErr env.migrate_send then (s, tr ++ [Tx.migrate target])
      else ({ s with current_zone := target }, tr ++ [Tx.migrate target])
    else (s, tr)
  -- Priority 4: `shield_tier == 1 and balance >= 5000`
  let prio4 : ProgState → List Tx → ProgState × List Tx := fun s tr =>
    if s.shield_tier = 1 ∧ (5000 : ℚ) ≤ balance then
      if isErr env.shield2_send then prio5 s (tr ++ [Tx.buyShield 2])
      else ({ s with shield_tier := 2 }, tr ++ [Tx.buyShield 2])
    else prio5 s tr
  -- Priority 3: `facility_level == 1 and balance >= 5000`
  let prio3 : ProgState → List Tx → ProgState × List Tx := fun s tr =>
    if s.facility_level = 1 ∧ (5000 : ℚ) ≤ balance then
      if isErr env.facility_send then prio4 s (tr ++ [Tx.upgradeFacility])
      else ({ s with facility_level := 2 }, tr ++ [Tx.upgradeFacility])
    else prio4 s tr
  -- Priority 2: `shield_tier == 0 and balance >= 1000`
  let prio2 : ProgState → List Tx → ProgState × List Tx := fun s tr =>
    if s.shield_tier = 0 ∧ (1000 : ℚ) ≤ balance then
      if isErr env.shield1_send then prio3 s (tr ++ [Tx.buyShield 1])
      else ({ s with shield_tier := 1 }, tr ++ [Tx.buyShield 1])
    else prio3 s tr
  -- Priority 1: `balance >= 500`, scan for the best affordable rig,
  -- buy it, then equip the estimated `next_rig_id` (incremented whether
  -- or not the equip succeeds; `action_taken` is set once the buy is
  -- accepted, so the ladder stops here even if the equip fails).
  if (500 : ℚ) ≤ balance then
    match best_rig balance with
    | some rig =>
      if isErr env.rig_buy_send then prio2 st [Tx.buyRig rig.tier]
      else
        if isErr env.rig_equip_send then
          ({ st with next_rig_id := st.next_rig_id + 1 },
            [Tx.buyRig rig.tier, Tx.equipRig st.next_rig_id])
        else
          ({ st with bought_rigs := st.bought_rigs ++ [st.next_rig_id],
                     next_rig_id := st.next_rig_id + 1 },
            [Tx.buyRig rig.tier, Tx.equipRig st.next_rig_id])
    | none => prio2 st []
  else prio2 st []

/-- One full cycle of `cmd_auto`: increment the cycle counter, submit
the heartbeat; if the heartbeat submission fails, sleep and `continue`
(nothing else happens this cycle); otherwise read state and run the
priority ladder. Returns the progression variables after the cycle and
every transaction submitted, in submission order. -/
def runCycle (st0 : ProgState) (env : Env) : ProgState × List Tx :=
  let st := { st0 with cycle := st0.cycle + 1 }
  if isErr env.hb_send then (st, [Tx.heartbeat])
  else
    let p := runPolicy st env
    (p.1, Tx.heartbeat :: p.2)

/-! ## Recommendations of `cmd_report` -/

/-- One entry of `cmd_report`'s `recommendations` list (the free-text
`reason` field is omitted). -/
structure Recommendation where
  action : String
  args : String
  priority : ℕ
  ask_user : Bool
deriving DecidableEq, Repr

/-- `[r for r in RIGS if r["cost"] > 0 and balance >= r["cost"]]`. -/
def affordable_rigs (balance : ℚ) : List RigSpec :=
  RIGS.filter (fun r => decide (0 < r.cost ∧ (r.cost : ℚ) ≤ balance))

/-- `affordable_rigs[-1] if affordable_rigs else None`. -/
def best_affordable_rig (balance : ℚ) : Option RigSpec :=
  (affordable_rigs balance).getLast?

/-- The `recommendations` list built by `cmd_report` from the claimed
balance and the MON gas balance; `pending` is in scope in `cmd_report`
but feeds only the display fields and the milestone distance, never a
recommendation. -/
def report_recommendations (balance pending mon : ℚ) : List Recommendation :=
  let recs : List Recommendation :=
    (match best_affordable_rig balance with
     | some r => [{ action := ("buy-rig"), args := toString r.tier, priority := 1,
                    ask_user := decide (50000 ≤ r.cost) }]
     | none => [])
    ++ (if (1000 : ℚ) ≤ balance then
          [{ action := ("buy-shield"), args := ("1"), priority := 2, ask_user := false }]
        else [])
    ++ (if (5000 : ℚ) ≤ balance then
          [{ action := ("upgrade-facility"), args := (""), priority := 3, ask_user := false }]
        else [])
    ++ (if (5000 : ℚ) ≤ balance then
          [{ action := ("buy-shield"), args := ("2"), priority := 4, ask_user := false }]
        else [])
  if mon < (0.05 : ℚ) then
    { action := ("alert-user"), args := (""), priority := 0, ask_user := true } :: recs
  else recs

/-! ## Codec lemmas -/

lemma hexVal_hexDigitChar : ∀ d, d < 16 → hexVal (hexDigitChar d) = some d := by decide

lemma hexDigitChar_ne_x : ∀ d, d < 16 → hexDigitChar d ≠ 'x' ∧ hexDigitChar d ≠ 'X' := by decide

lemma hexChars_ne_nil (n : ℕ) : hexChars n ≠ [] := by
  rw [hexChars]
  split <;> simp

lemma hexChars_mem (n : ℕ) : ∀ c ∈ hexChars n, ∃ d, d < 16 ∧ c = hexDigitChar d := by
  induction n using Nat.strong_induction_on with
  | _ n ih =>
    rw [hexChars]
    split
    · intro c hc
      simp only [List.mem_singleton] at hc
      subst hc
      exact ⟨n, by omega, rfl⟩
    · intro c hc
      rw [List.mem_append, List.mem_singleton] at hc
      rcases hc with hc | hc
      · exact ih (n / 16) (Nat.div_lt_self (by omega) (by omega)) c hc
      · subst hc
        exact ⟨n % 16, Nat.mod_lt _ (by omega), rfl⟩

lemma foldl_hexAccum_hexChars (n : ℕ) :
    ∀ a : ℕ, (hexChars n).foldl hexAccum (some a) = some (a * 16 ^ (hexChars n).length + n) := by
  induction n using Nat.strong_induction_on with
  | _ n ih =>
    intro a
    rw [hexChars]
    split
    · rename_i hlt
      simp only [List.foldl_cons, List.foldl_nil, List.length_singleton, pow_one]
      have hstep : hexAccum (some a) (hexDigitChar n) = some (16 * a + n) := by
        simp [hexAccum, hexVal_hexDigitChar n hlt]
      rw [hstep]
      congr 1
      ring
    · rename_i hge
      rw [List.foldl_append, ih (n / 16) (Nat.div_lt_self (by omega) (by omega)) a]
      simp only [List.foldl_cons, List.foldl_nil, List.length_append, List.length_singleton]
      have hstep : hexAccum (some (a * 16 ^ (hexChars (n / 16)).length + n / 16)) (hexDigitChar (n % 16))
          = some (16 * (a * 16 ^ (hexChars (n / 16)).length + n / 16) + n % 16) := by
        simp [hexAccum, hexVal_hexDigitChar (n % 16) (Nat.mod_lt _ (by omega))]
      rw [hstep]
      congr 1
      have hdm : 16 * (n / 16) + n % 16 = n := Nat.div_add_mod n 16
      calc 16 * (a * 16 ^ (hexChars (n / 16)).length + n / 16) + n % 16
          = a * 16 ^ ((hexChars (n / 16)).length + 1) + (16 * (n / 16) + n % 16) := by ring
        _ = a * 16 ^ ((hexChars (n / 16)).length + 1) + n := by rw [hdm]

lemma foldl_hexAccum_replicate (k : ℕ) :
    (List.replicate k '0').foldl hexAccum (some 0) = some 0 := by
  induction k with
  | zero => rfl
  | succ k ih =>
    rw [List.replicate_succ, List.foldl_cons,
      show hexAccum (some 0) '0' = some 0 from rfl]
    exact ih

lemma encode_uint256_mem (v : ℕ) :
    ∀ c ∈ (encode_uint256 v).data, c ≠ 'x' ∧ c ≠ 'X' := by
  intro c hc
  rw [show (encode_uint256 v).data
        = List.replicate (64 - (hexChars v).length) '0' ++ hexChars v from rfl,
    List.mem_append] at hc
  rcases hc with hc | hc
  · rw [List.eq_of_mem_replicate hc]
    constructor <;> decide
  · obtain ⟨d, hd, rfl⟩ := hexChars_mem v c hc
    exact hexDigitChar_ne_x d hd

/-! ## Characterization of the rig scan -/

lemma RIGS_reverse_eq :
    RIGS.reverse = [neutrino_rig, magma_rig, windmill_rig, scrapheap_rig, potato_rig] := rfl

lemma rig_pred_false_of_lt (b : ℚ) (r : RigSpec) (h : b < (r.cost : ℚ)) :
    ¬ (rig_affordable b r = true) := by
  rw [rig_affordable]
  simp only [decide_eq_true_eq]
  rintro ⟨-, hle⟩
  linarith

lemma rig_pred_false_of_zero (r : RigSpec) (h : r.cost = 0) (b : ℚ) :
    ¬ (rig_affordable b r = true) := by
  rw [rig_affordable]
  simp only [decide_eq_true_eq]
  rintro ⟨hpos, -⟩
  omega

lemma rig_pred_true (b : ℚ) (r : RigSpec) (h0 : 0 < r.cost) (h : (r.cost : ℚ) ≤ b) :
    rig_affordable b r = true := by
  rw [rig_affordable]
  simp only [decide_eq_true_eq]
  exact ⟨h0, h⟩

lemma best_rig_of_lt_500 (b : ℚ) (h : b < 500) : best_rig b = none := by
  have hn : b < (neutrino_rig.cost : ℚ) := by
    show b < ((50000 : ℕ) : ℚ)
    push_cast
    linarith
  have hm : b < (magma_rig.cost : ℚ) := by
    show b < ((10000 : ℕ) : ℚ)
    push_cast
    linarith
  have hw : b < (windmill_rig.cost : ℚ) := by
    show b < ((2000 : ℕ) : ℚ)
    push_cast
    linarith
  have hs : b < (scrapheap_rig.cost : ℚ) := by
    show b < ((500 : ℕ) : ℚ)
    push_cast
    linarith
  rw [best_rig, RIGS_reverse_eq,
    List.find?_cons_of_neg _ (rig_pred_false_of_lt b neutrino_rig hn),
    List.find?_cons_of_neg _ (rig_pred_false_of_lt b magma_rig hm),
    List.find?_cons_of_neg _ (rig_pred_false_of_lt b windmill_rig hw),
    List.find?_cons_of_neg _ (rig_pred_false_of_lt b scrapheap_rig hs),
    List.find?_cons_of_neg _ (rig_pred_false_of_zero potato_rig rfl b),
    List.find?_nil]

lemma best_rig_of_500 (b : ℚ) (h1 : 500 ≤ b) (h2 : b < 2000) :
    best_rig b = some scrapheap_rig := by
  have hn : b < (neutrino_rig.cost : ℚ) := by
    show b < ((50000 : ℕ) : ℚ)
    push_cast
    linarith
  have hm : b < (magma_rig.cost : ℚ) := by
    show b < ((10000 : ℕ) : ℚ)
    push_cast
    linarith
  have hw : b < (windmill_rig.cost : ℚ) := by
    show b < ((2000 : ℕ) : ℚ)
    push_cast
    linarith
  have hs : (scrapheap_rig.cost : ℚ) ≤ b := by
    show ((500 : ℕ) : ℚ) ≤ b
    push_cast
    linarith
  rw [best_rig, RIGS_reverse_eq,
    List.find?_cons_of_neg _ (rig_pred_false_of_lt b neutrino_rig hn),
    List.find?_cons_of_neg _ (rig_pred_false_of_lt b magma_rig hm),
    List.find?_cons_of_neg _ (rig_pred_false_of_lt b windmill_rig hw),
    List.find?_cons_of_pos _ (rig_pred_true b scrapheap_rig (by decide) hs)]

lemma best_rig_of_2000 (b : ℚ) (h1 : 2000 ≤ b) (h2 : b < 10000) :
    best_rig b = some windmill_rig := by
  have hn : b < (neutrino_rig.cost : ℚ) := by
    show b < ((50000 : ℕ) : ℚ)
    push_cast
    linarith
  have hm : b < (magma_rig.cost : ℚ) := by
    show b < ((10000 : ℕ) : ℚ)
    push_cast
    linarith
  have hw : (windmill_rig.cost : ℚ) ≤ b := by
    show ((2000 : ℕ) : ℚ) ≤ b
    push_cast
    linarith
  rw [best_rig, RIGS_reverse_eq,
    List.find?_cons_of_neg _ (rig_pred_false_of_lt b neutrino_rig hn),
    List.find?_cons_of_neg _ (rig_pred_false_of_lt b magma_rig hm),
    List.find?_cons_of_pos _ (rig_pred_true b windmill_rig (by decide) hw)]

lemma best_rig_of_10000 (b : ℚ) (h1 : 10000 ≤ b) (h2 : b < 50000) :
    best_rig b = some magma_rig := by
  have hn : b < (neutrino_rig.cost : ℚ) := by
    show b < ((50000 : ℕ) : ℚ)
    push_cast
    linarith
  have hm : (magma_rig.cost : ℚ) ≤ b := by
    show ((10000 : ℕ) : ℚ) ≤ b
    push_cast
    linarith
  rw [best_rig, RIGS_reverse_eq,
    List.find?_cons_of_neg _ (rig_pred_false_of_lt b neutrino_rig hn),
    List.find?_cons_of_pos _ (rig_pred_true b magma_rig (by decide) hm)]

lemma best_rig_of_50000 (b : ℚ) (h1 : 50000 ≤ b) :
    best_rig b = some neutrino_rig := by
  have hn : (neutrino_rig.cost : ℚ) ≤ b := by
    show ((50000 : ℕ) : ℚ) ≤ b
    push_cast
    linarith
  rw [best_rig, RIGS_reverse_eq,
    List.find?_cons_of_pos _ (rig_pred_true b neutrino_rig (by decide) hn)]

lemma best_rig_exists (b : ℚ) (h : (500 : ℚ) ≤ b) : ∃ r, best_rig b = some r := by
  rcases lt_or_le b 2000 with h2 | h2
  · exact ⟨scrapheap_rig, best_rig_of_500 b h h2⟩
  rcases lt_or_le b 10000 with h3 | h3
  · exact ⟨windmill_rig, best_rig_of_2000 b h2 h3⟩
  rcases lt_or_le b 50000 with h4 | h4
  · exact ⟨magma_rig, best_rig_of_10000 b h3 h4⟩
  · exact ⟨neutrino_rig, best_rig_of_50000 b h4⟩

lemma rig_cost_le_of_lt_2000 (b : ℚ) (h2 : b < 2000) :
    ∀ r' ∈ RIGS, 0 < r'.cost → (r'.cost : ℚ) ≤ b → r'.cost ≤ 500 := by
  intro r' hmem hpos hle
  simp only [RIGS, List.mem_cons, List.not_mem_nil, or_false] at hmem
  rcases hmem with rfl | rfl | rfl | rfl | rfl
  · decide
  · decide
  · exfalso
    push_cast [windmill_rig] at hle
    linarith
  · exfalso
    push_cast [magma_rig] at hle
    linarith
  · exfalso
    push_cast [neutrino_rig] at hle
    linarith

lemma rig_cost_le_of_lt_10000 (b : ℚ) (h2 : b < 10000) :
    ∀ r' ∈ RIGS, 0 < r'.cost → (r'.cost : ℚ) ≤ b → r'.cost ≤ 2000 := by
  intro r' hmem hpos hle
  simp only [RIGS, List.mem_cons, List.not_mem_nil, or_false] at hmem
  rcases hmem with rfl | rfl | rfl | rfl | rfl
  · decide
  · decide
  · decide
  · exfalso
    push_cast [magma_rig] at hle
    linarith
  · exfalso
    push_cast [neutrino_rig] at hle
    linarith

lemma rig_cost_le_of_lt_50000 (b : ℚ) (h2 : b < 50000) :
    ∀ r' ∈ RIGS, 0 < r'.cost → (r'.cost : ℚ) ≤ b → r'.cost ≤ 10000 := by
  intro r' hmem hpos hle
  simp only [RIGS, List.mem_cons, List.not_mem_nil, or_false] at hmem
  rcases hmem with rfl | rfl | rfl | rfl | rfl
  · decide
  · decide
  · decide
  · decide
  · exfalso
    push_cast [neutrino_rig] at hle
    linarith

lemma rig_cost_le_50000 : ∀ r' ∈ RIGS, r'.cost ≤ 50000 := by decide

/-! ## Claim theorems -/

/-- Claim C10: for every integer `v` with `0 ≤ v < 2^256`, decoding the
encoding of `v` returns `v`: `decode_uint256(encode_uint256(v)) = v`. -/
theorem decode_encode_roundtrip (v : ℕ) (h : v < 2 ^ 256) :
    decode_uint256 (encode_uint256 v) = Except.ok v := by
  have hdata : (encode_uint256 v).data
      = List.replicate (64 - (hexChars v).length) '0' ++ hexChars v := rfl
  have hnx : ∀ c ∈ (encode_uint256 v).data, c ≠ 'x' ∧ c ≠ 'X' := encode_uint256_mem v
  have hne : (encode_uint256 v).data ≠ [] := by
    rw [hdata]
    intro hcontra
    exact hexChars_ne_nil v (List.append_eq_nil.mp hcontra).2
  have hx_not_mem : 'x' ∉ (encode_uint256 v).data := fun hm => (hnx 'x' hm).1 rfl
  have hX_not_mem : 'X' ∉ (encode_uint256 v).data := fun hm => (hnx 'X' hm).2 rfl
  have hne0x : (encode_uint256 v).data ≠ ['0', 'x'] := by
    intro heq
    exact hx_not_mem (heq ▸ (by simp))
  have htake : ¬((encode_uint256 v).data.take 2 = ['0', 'x']
      ∨ (encode_uint256 v).data.take 2 = ['0', 'X']) := by
    rintro (heq | heq)
    · exact hx_not_mem (List.take_subset 2 _ (heq ▸ (by simp)))
    · exact hX_not_mem (List.take_subset 2 _ (heq ▸ (by simp)))
  have hval : hexDigitsVal (encode_uint256 v).data = some v := by
    rw [hdata, hexDigitsVal, List.foldl_append, foldl_hexAccum_replicate,
      foldl_hexAccum_hexChars]
    simp
  have hint : intBase16 (encode_uint256 v).data = some v := by
    simp only [intBase16]
    rw [if_neg htake, if_neg hne, hval]
  simp only [decode_uint256]
  rw [if_neg (by rintro (hc | hc); exacts [hne hc, hne0x hc]), hint]

/-- Witness for the roundtrip theorem at `v = 255`. -/
theorem decode_encode_roundtrip_witness :
    (255 : ℕ) < 2 ^ 256 ∧ decode_uint256 (encode_uint256 255) = Except.ok 255 :=
  ⟨by decide, decode_encode_roundtrip 255 (by decide)⟩

/-- Claim C1: for every claimed balance `b`, when at least one catalog rig
has `cost > 0` and `cost ≤ b`, Decision Engine rule 1 selects exactly the
rig with the highest such cost; rule 1 never selects a rig whose cost
exceeds `b`; and when no such rig exists, rule 1 selects no rig. -/
theorem rule1_selects_highest_affordable_rig (b : ℚ) :
    ((∃ r ∈ RIGS, 0 < r.cost ∧ (r.cost : ℚ) ≤ b) →
      ∃ r, rule1 b = some r ∧ 0 < r.cost ∧ (r.cost : ℚ) ≤ b ∧
        ∀ r' ∈ RIGS, 0 < r'.cost → (r'.cost : ℚ) ≤ b → r'.cost ≤ r.cost)
    ∧ (∀ r, rule1 b = some r → 0 < r.cost ∧ (r.cost : ℚ) ≤ b)
    ∧ ((¬ ∃ r ∈ RIGS, 0 < r.cost ∧ (r.cost : ℚ) ≤ b) → rule1 b = none) := by
  rcases lt_or_le b 500 with h500 | h500
  · have hsel : rule1 b = none := by
      rw [rule1, if_neg (not_le.mpr h500)]
    have hno : ¬ ∃ r ∈ RIGS, 0 < r.cost ∧ (r.cost : ℚ) ≤ b := by
      rintro ⟨r, hmem, hpos, hle⟩
      simp only [RIGS, List.mem_cons, List.not_mem_nil, or_false] at hmem
      rcases hmem with rfl | rfl | rfl | rfl | rfl
      · exact absurd hpos (by decide)
      · push_cast [scrapheap_rig] at hle
        linarith
      · push_cast [windmill_rig] at hle
        linarith
      · push_cast [magma_rig] at hle
        linarith
      · push_cast [neutrino_rig] at hle
        linarith
    refine ⟨fun hex => absurd hex hno, ?_, fun _ => hsel⟩
    intro r hr
    rw [hsel] at hr
    exact Option.noConfusion hr
  · have hguard : rule1 b = best_rig b := by
      rw [rule1, if_pos h500]
    rcases lt_or_le b 2000 with h2 | h2
    · have hsel : rule1 b = some scrapheap_rig := by
        rw [hguard, best_rig_of_500 b h500 h2]
      have hcost : ((scrapheap_rig.cost : ℕ) : ℚ) ≤ b := by
        show ((500 : ℕ) : ℚ) ≤ b
        push_cast
        linarith
      refine ⟨fun _ => ⟨scrapheap_rig, hsel, by decide, hcost, rig_cost_le_of_lt_2000 b h2⟩,
        ?_, ?_⟩
      · intro r hr
        rw [hsel] at hr
        injection hr with hr'
        subst hr'
        exact ⟨by decide, hcost⟩
      · intro hno
        exact absurd ⟨scrapheap_rig, by simp [RIGS], by decide, hcost⟩ hno
    rcases lt_or_le b 10000 with h3 | h3
    · have hsel : rule1 b = some windmill_rig := by
        rw [hguard, best_rig_of_2000 b h2 h3]
      have hcost : ((windmill_rig.cost : ℕ) : ℚ) ≤ b := by
        show ((2000 : ℕ) : ℚ) ≤ b
        push_cast
        linarith
      refine ⟨fun _ => ⟨windmill_rig, hsel, by decide, hcost, rig_cost_le_of_lt_10000 b h3⟩,
        ?_, ?_⟩
      · intro r hr
        rw [hsel] at hr
        injection hr with hr'
        subst hr'
        exact ⟨by decide, hcost⟩
      · intro hno
        exact absurd ⟨windmill_rig, by simp [RIGS], by decide, hcost⟩ hno
    rcases lt_or_le b 50000 with h4 | h4
    · have hsel : rule1 b = some magma_rig := by
        rw [hguard, best_rig_of_10000 b h3 h4]
      have hcost : ((magma_rig.cost : ℕ) : ℚ) ≤ b := by
        show ((10000 : ℕ) : ℚ) ≤ b
        push_cast
        linarith
      refine ⟨fun _ => ⟨magma_rig, hsel, by decide, hcost, rig_cost_le_of_lt_50000 b h4⟩,
        ?_, ?_⟩
      · intro r hr
        rw [hsel] at hr
        injection hr with hr'
        subst hr'
        exact ⟨by decide, hcost⟩
      · intro hno
        exact absurd ⟨magma_rig, by simp [RIGS], by decide, hcost⟩ hno
    · have hsel : rule1 b = some neutrino_rig := by
        rw [hguard, best_rig_of_50000 b h4]
      have hcost : ((neutrino_rig.cost : ℕ) : ℚ) ≤ b := by
        show ((50000 : ℕ) : ℚ) ≤ b
        push_cast
        linarith
      refine ⟨fun _ => ⟨neutrino_rig, hsel, by decide, hcost,
        fun r' hm _ _ => rig_cost_le_50000 r' hm⟩, ?_, ?_⟩
      · intro r hr
        rw [hsel] at hr
        injection hr with hr'
        subst hr'
        exact ⟨by decide, hcost⟩
      · intro hno
        exact absurd ⟨neutrino_rig, by simp [RIGS], by decide, hcost⟩ hno

/-- Witness for rule 1 at `b = 2000`: some rig with positive cost is
affordable, and the selected rig is affordable and cost-maximal. -/
theorem rule1_selects_highest_affordable_rig_witness :
    ∃ r, rule1 2000 = some r ∧ 0 < r.cost ∧ (r.cost : ℚ) ≤ 2000 ∧
      ∀ r' ∈ RIGS, 0 < r'.cost → (r'.cost : ℚ) ≤ 2000 → r'.cost ≤ r.cost :=
  (rule1_selects_highest_affordable_rig 2000).1
    ⟨windmill_rig, by simp [RIGS], by decide, by push_cast [windmill_rig]; norm_num⟩

/-- Claim C7: for every block height `h`, `warmupRemaining` equals
`max(0, warmupEligibleBlock − h)`, is non-increasing as the height
increases, and `can_claim` holds exactly when `h ≥ warmupEligibleBlock`. -/
theorem warmup_status_correct (h h' : ℤ) (hle : h ≤ h') :
    (get_warmup_status h).blocks_remaining = max 0 (CLAIM_ELIGIBLE_BLOCK - h) ∧
    (get_warmup_status h').blocks_remaining ≤ (get_warmup_status h).blocks_remaining ∧
    ((get_warmup_status h).can_claim = true ↔ CLAIM_ELIGIBLE_BLOCK ≤ h) := by
  refine ⟨rfl, ?_, ?_⟩
  · show max 0 (CLAIM_ELIGIBLE_BLOCK - h') ≤ max 0 (CLAIM_ELIGIBLE_BLOCK - h)
    exact max_le_max le_rfl (by omega)
  · show (max 0 (CLAIM_ELIGIBLE_BLOCK - h) == 0) = true ↔ CLAIM_ELIGIBLE_BLOCK ≤ h
    rw [beq_iff_eq]
    constructor
    · intro hmax
      by_contra hc
      push_neg at hc
      rw [max_eq_right (by omega : (0 : ℤ) ≤ CLAIM_ELIGIBLE_BLOCK - h)] at hmax
      omega
    · intro hc
      exact max_eq_left (by omega)

/-- Witness for the warmup theorem one block before and at eligibility. -/
theorem warmup_status_correct_witness :
    (get_warmup_status 11682019).blocks_remaining = max 0 (CLAIM_ELIGIBLE_BLOCK - 11682019) ∧
    (get_warmup_status 11682020).blocks_remaining ≤ (get_warmup_status 11682019).blocks_remaining ∧
    ((get_warmup_status 11682019).can_claim = true ↔ CLAIM_ELIGIBLE_BLOCK ≤ 11682019) :=
  warmup_status_correct 11682019 11682020 (by decide)

/-- Claim C2: the pending-rewards read never influences a decision cycle
(state update or submitted transactions) nor the recommendations of
`cmd_report`; only the claimed balance funds purchases. -/
theorem pending_rewards_never_fund_decisions (st : ProgState) (env : Env)
    (p p' b pd pd' m : ℚ) :
    runCycle st { env with pending := p } = runCycle st { env with pending := p' } ∧
    report_recommendations b pd m = report_recommendations b pd' m :=
  ⟨rfl, rfl⟩

/-- Claim C9: in every cycle the heartbeat is the first submitted
transaction, and if its submission fails no policy decision is made and
no further transaction is submitted in that cycle (only the cycle
counter advances). -/
theorem heartbeat_first_and_gates_cycle (st : ProgState) (env : Env) :
    (runCycle st env).2.head? = some Tx.heartbeat ∧
    (∀ m, env.hb_send = SendResult.err m →
      (runCycle st env).2 = [Tx.heartbeat] ∧
      (runCycle st env).1 = { st with cycle := st.cycle + 1 }) := by
  constructor
  · cases hhb : isErr env.hb_send <;> simp [runCycle, hhb]
  · intro m hm
    have hhb : isErr env.hb_send = true := by
      rw [hm]
      rfl
    refine ⟨?_, ?_⟩ <;> simp [runCycle, hhb]

/-- Witness for the heartbeat-gating theorem: a cycle whose heartbeat
submission fails submits nothing else and only advances the counter. -/
theorem heartbeat_first_and_gates_cycle_witness :
    (runCycle { cycle := 0, next_rig_id := 33, bought_rigs := [], current_zone := 2,
                facility_level := 1, shield_tier := 0 }
      { hb_send := SendResult.err ("boom"), balance := 5000, pending := 0,
        rig_buy_send := SendResult.ok ("0xb"), rig_equip_send := SendResult.ok ("0xe"),
        shield1_send := SendResult.ok ("0xs"), facility_send := SendResult.ok ("0xf"),
        shield2_send := SendResult.ok ("0xs2"), migrate_send := SendResult.ok ("0xm"),
        facility_receipt := none }).2 = [Tx.heartbeat] ∧
    (runCycle { cycle := 0, next_rig_id := 33, bought_rigs := [], current_zone := 2,
                facility_level := 1, shield_tier := 0 }
      { hb_send := SendResult.err ("boom"), balance := 5000, pending := 0,
        rig_buy_send := SendResult.ok ("0xb"), rig_equip_send := SendResult.ok ("0xe"),
        shield1_send := SendResult.ok ("0xs"), facility_send := SendResult.ok ("0xf"),
        shield2_send := SendResult.ok ("0xs2"), migrate_send := SendResult.ok ("0xm"),
        facility_receipt := none }).1
      = { cycle := 1, next_rig_id := 33, bought_rigs := [], current_zone := 2,
          facility_level := 1, shield_tier := 0 } := by
  have h := heartbeat_first_and_gates_cycle
    { cycle := 0, next_rig_id := 33, bought_rigs := [], current_zone := 2,
      facility_level := 1, shield_tier := 0 }
    { hb_send := SendResult.err ("boom"), balance := 5000, pending := 0,
      rig_buy_send := SendResult.ok ("0xb"), rig_equip_send := SendResult.ok ("0xe"),
      shield1_send := SendResult.ok ("0xs"), facility_send := SendResult.ok ("0xf"),
      shield2_send := SendResult.ok ("0xs2"), migrate_send := SendResult.ok ("0xm"),
      facility_receipt := none }
  exact ⟨(h.2 ("boom") rfl).1, (h.2 ("boom") rfl).2⟩

/-- Claim C3 counterexample: a cycle in which the facility-upgrade
transaction is accepted for broadcast but reverts on-chain (its receipt
has status `0`, so `check_tx_receipt` reports failure). The locally
tracked `facility_level` was `1` before the attempt and is `2` after the
cycle: the optimistic mutation is NOT rolled back, because `cmd_auto`
never consults receipts. -/
theorem facility_revert_rollback_cex :
    check_tx_receipt (some { status := some 0, gasUsed := 50000 }) = false ∧
    (runCycle { cycle := 0, next_rig_id := 33, bought_rigs := [], current_zone := 2,
                facility_level := 1, shield_tier := 2 }
      { hb_send := SendResult.ok ("0xhb"), balance := 5000, pending := 0,
        rig_buy_send := SendResult.err ("ERROR: execution reverted"),
        rig_equip_send := SendResult.ok ("0xe"),
        shield1_send := SendResult.ok ("0xs"), facility_send := SendResult.ok ("0xf"),
        shield2_send := SendResult.ok ("0xs2"), migrate_send := SendResult.ok ("0xm"),
        facility_receipt := some { status := some 0, gasUsed := 50000 } }).1.facility_level
      = 2 :=
  ⟨rfl, by decide⟩

/-- Claim C3 (amended): a `Reverted` outcome for a facility upgrade does
NOT restore `facility_level`: once the upgrade transaction is accepted
for broadcast, `cmd_auto` sets `facility_level := 2` and never checks
the receipt, so the level stays `2` even when the on-chain outcome is a
revert; the level is left unchanged only when the submission itself
fails. -/
theorem facility_revert_no_rollback (st : ProgState) (env : Env)
    (hhb : isErr env.hb_send = false)
    (hbal : (5000 : ℚ) ≤ env.balance)
    (hfac : st.facility_level = 1)
    (hbuy : isErr env.rig_buy_send = true)
    (hsh : st.shield_tier ≠ 0 ∨ isErr env.shield1_send = true)
    (hfs : isErr env.facility_send = false)
    (hrev : check_tx_receipt env.facility_receipt = false) :
    (runCycle st env).1.facility_level = 2 := by
  have h500 : (500 : ℚ) ≤ env.balance := by linarith
  obtain ⟨r, hr⟩ := best_rig_exists env.balance h500
  by_cases hst : st.shield_tier = 0
  · rcases hsh with hcontra | hs1
    · exact absurd hst hcontra
    · simp [runCycle, runPolicy, hhb, hbuy, hfs, hfac, hbal, h500, hr, hst, hs1,
        (by linarith : (1000 : ℚ) ≤ env.balance)]
  · simp [runCycle, runPolicy, hhb, hbuy, hfs, hfac, hbal, h500, hr, hst]

/-- Witness for the no-rollback theorem at the concrete reverted-upgrade
cycle. -/
theorem facility_revert_no_rollback_witness :
    (runCycle { cycle := 0, next_rig_id := 33, bought_rigs := [], current_zone := 2,
                facility_level := 1, shield_tier := 2 }
      { hb_send := SendResult.ok ("0xhb"), balance := 6000, pending := 0,
        rig_buy_send := SendResult.err ("ERROR: execution reverted"),
        rig_equip_send := SendResult.ok ("0xe"),
        shield1_send := SendResult.ok ("0xs"), facility_send := SendResult.ok ("0xf"),
        shield2_send := SendResult.ok ("0xs2"), migrate_send := SendResult.ok ("0xm"),
        facility_receipt := some { status := some 0, gasUsed := 77000 } }).1.facility_level
      = 2 :=
  facility_revert_no_rollback
    { cycle := 0, next_rig_id := 33, bought_rigs := [], current_zone := 2,
      facility_level := 1, shield_tier := 2 }
    { hb_send := SendResult.ok ("0xhb"), balance := 6000, pending := 0,
      rig_buy_send := SendResult.err ("ERROR: execution reverted"),
      rig_equip_send := SendResult.ok ("0xe"),
      shield1_send := SendResult.ok ("0xs"), facility_send := SendResult.ok ("0xf"),
      shield2_send := SendResult.ok ("0xs2"), migrate_send := SendResult.ok ("0xm"),
      facility_receipt := some { status := some 0, gasUsed := 77000 } }
    rfl (by decide) rfl rfl (Or.inl (by decide)) rfl rfl

/-- Claim C4 counterexample: when the receipt is not yet visible, the
outcome check returns `true` — the very same value it returns for a
successful receipt. There is no outcome distinct from success (no named
`Unknown`); the pending case is indistinguishable from `Success`. -/
theorem unknown_receipt_cex :
    check_tx_receipt none = true ∧
    check_tx_receipt (some { status := some 1, gasUsed := 21000 }) = true :=
  ⟨rfl, rfl⟩

/-- Claim C4 (amended): when the receipt is not yet visible after the
settle delay, `check_tx_receipt` returns `true`, collapsing the
"unknown" case into success rather than yielding a distinct named
`Unknown`; only a visible receipt with status `0` yields `false`.
`cmd_auto` never consults receipts at all, so no ProgressionState
mutation is ever based on a receipt outcome, unknown or otherwise. -/
theorem unknown_receipt_collapsed_to_success :
    check_tx_receipt none = true ∧
    check_tx_receipt (some { status := some 0, gasUsed := 21000 }) = false ∧
    ∀ (st : ProgState) (env : Env) (r r' : Option Receipt),
      runCycle st { env with facility_receipt := r }
        = runCycle st { env with facility_receipt := r' } :=
  ⟨rfl, rfl, fun _ _ _ _ => rfl⟩

/-- Claim C5 counterexample: a transport-level error while reading the
claimed balance yields the integer `0` — not a result distinct from the
integers. The caller receives zero as a substitute for the unavailable
read, indistinguishable from a genuine zero balance. -/
theorem transport_error_yields_zero_cex :
    get_balance_wei (Except.error ("URLError: timeout")) = Except.ok 0 :=
  rfl

/-- Claim C5 (amended): on a transport error, `rpc_call` returns an
error dict with no `result` field, `eth_call` substitutes the default
`"0x"`, and `get_balance` decodes it to `0`: the caller receives zero
for an unavailable read; no distinct `Unavailable` result exists. -/
theorem transport_error_decodes_to_zero (msg : String) :
    rpc_call (Except.error msg) = { result := none, error := some msg } ∧
    eth_call (rpc_call (Except.error msg)) = ("0x") ∧
    get_balance_wei (Except.error msg) = Except.ok 0 :=
  ⟨rfl, rfl, rfl⟩

/-- Claim C6 counterexample: decoding the malformed (non-empty, non-hex)
sequence `"zz"` raises `ValueError` instead of yielding `0`. -/
theorem decode_malformed_raises_cex :
    decode_uint256 ("zz") = Except.error ("ValueError") :=
  rfl

/-- Claim C6 (amended): decoding an empty sequence or the literal `"0x"`
yields `0` and never raises — in particular a zero-length result always
yields `0` — but decoding a malformed non-empty sequence raises
`ValueError` rather than yielding `0`. -/
theorem decode_empty_ok_malformed_raises :
    decode_uint256 ("") = Except.ok 0 ∧
    decode_uint256 ("0x") = Except.ok 0 ∧
    decode_uint256 ("zz") = Except.error ("ValueError") :=
  ⟨rfl, rfl, rfl⟩

/-- Claim C8 counterexample: at `claimedBalance = 800` with
`shieldTier = 0`, the engine does NOT select `BuyShield(tier=1)`: the
Scrapheap rig (cost 500) is affordable, so priority 1 fires and the
cycle submits `BuyRig 1`; and even when the rig purchase submission
fails, no shield is attempted because `800 < 1000`. -/
theorem shield_at_800_cex :
    Tx.buyShield 1 ∉ (runCycle
      { cycle := 0, next_rig_id := 33, bought_rigs := [],
        current_zone := 2, facility_level := 1, shield_tier := 0 }
      { hb_send := SendResult.ok ("0xhb"), balance := 800, pending := 0,
        rig_buy_send := SendResult.ok ("0xb"), rig_equip_send := SendResult.ok ("0xe"),
        shield1_send := SendResult.ok ("0xs"), facility_send := SendResult.ok ("0xf"),
        shield2_send := SendResult.ok ("0xs2"), migrate_send := SendResult.ok ("0xm"),
        facility_receipt := none }).2 ∧
    (runCycle
      { cycle := 0, next_rig_id := 33, bought_rigs := [],
        current_zone := 2, facility_level := 1, shield_tier := 0 }
      { hb_send := SendResult.ok ("0xhb"), balance := 800, pending := 0,
        rig_buy_send := SendResult.ok ("0xb"), rig_equip_send := SendResult.ok ("0xe"),
        shield1_send := SendResult.ok ("0xs"), facility_send := SendResult.ok ("0xf"),
        shield2_send := SendResult.ok ("0xs2"), migrate_send := SendResult.ok ("0xm"),
        facility_receipt := none }).2
      = [Tx.heartbeat, Tx.buyRig 1, Tx.equipRig 33] ∧
    (runCycle
      { cycle := 0, next_rig_id := 33, bought_rigs := [],
        current_zone := 2, facility_level := 1, shield_tier := 0 }
      { hb_send := SendResult.ok ("0xhb"), balance := 800, pending := 0,
        rig_buy_send := SendResult.err ("ERROR: rejected"),
        rig_equip_send := SendResult.ok ("0xe"),
        shield1_send := SendResult.ok ("0xs"), facility_send := SendResult.ok ("0xf"),
        shield2_send := SendResult.ok ("0xs2"), migrate_send := SendResult.ok ("0xm"),
        facility_receipt := none }).2
      = [Tx.heartbeat, Tx.buyRig 1] := by
  refine ⟨by decide, by decide, by decide⟩

/-- Claim C8 (amended): at `claimedBalance = 800` with `shieldTier = 0`
the engine selects `BuyRig(tier=1)` (the Scrapheap, cost 500, is
affordable, so "no affordable rig above cost 0" cannot hold at 800);
`BuyShield(tier=1)` is selected only when the rig purchase does not go
through and the balance covers the tier-1 shield cost of 1000. -/
theorem engine_at_800_buys_rig :
    (runCycle
      { cycle := 0, next_rig_id := 33, bought_rigs := [],
        current_zone := 2, facility_level := 1, shield_tier := 0 }
      { hb_send := SendResult.ok ("0xhb"), balance := 800, pending := 0,
        rig_buy_send := SendResult.ok ("0xb"), rig_equip_send := SendResult.ok ("0xe"),
        shield1_send := SendResult.ok ("0xs"), facility_send := SendResult.ok ("0xf"),
        shield2_send := SendResult.ok ("0xs2"), migrate_send := SendResult.ok ("0xm"),
        facility_receipt := none }).2
      = [Tx.heartbeat, Tx.buyRig 1, Tx.equipRig 33] ∧
    (runCycle
      { cycle := 0, next_rig_id := 33, bought_rigs := [],
        current_zone := 2, facility_level := 1, shield_tier := 0 }
      { hb_send := SendResult.ok ("0xhb"), balance := 1000, pending := 0,
        rig_buy_send := SendResult.err ("ERROR: rejected"),
        rig_equip_send := SendResult.ok ("0xe"),
        shield1_send := SendResult.ok ("0xs"), facility_send := SendResult.ok ("0xf"),
        shield2_send := SendResult.ok ("0xs2"), migrate_send := SendResult.ok ("0xm"),
        facility_receipt := none }).2
      = [Tx.heartbeat, Tx.buyRig 1, Tx.buyShield 1] := by
  refine ⟨by decide, by decide⟩

end Chaoscoin
